import Mathlib

/-!
# Verification of `rand_impls.rs` (the `Rand` implementations of the `rand` crate)

Shallow embedding of `src/rand_impls.rs`.  The entropy source (`Rng`) is
modelled as two streams of raw generator words together with counters of how
many 32-bit and 64-bit draws have been consumed; each `next_u32` / `next_u64`
call reads the stream at the current counter (masked to the word width) and
advances the counter.  Floating-point values are modelled as exact rationals
together with an IEEE-754 round-to-nearest-even rounding operation at a given
significand precision (53 bits for `f64`, 24 for `f32`); the model covers the
normal range, which contains every value occurring in the float interval
mappers (all inputs and results lie in `[2 ^ (-60), 2]`).
-/

/-- `2 ^ e` as an exact rational, for an integer exponent `e`. -/
def pow2 (e : ℤ) : ℚ :=
  if 0 ≤ e then ((2 : ℚ)) ^ e.toNat else 1 / ((2 : ℚ)) ^ (-e).toNat

/-- Fuel-bounded binary logarithm on `ℕ` (structural recursion so that the
kernel can evaluate it on literals): `log2fuel f n = ⌊log₂ n⌋` whenever
`n < 2 ^ f` and `0 < n`. -/
def log2fuel : ℕ → ℕ → ℕ
  | 0, _ => 0
  | f + 1, n => if n ≤ 1 then 0 else log2fuel f (n / 2) + 1

/-- `⌊log₂ n⌋` for `0 < n < 2 ^ 300`, which covers every numerator and
denominator occurring in this development. -/
def natLog2 (n : ℕ) : ℕ := log2fuel 300 n

/-- Floor of the base-2 logarithm of a positive rational: the unique `e`
with `2 ^ e ≤ q < 2 ^ (e + 1)`.  Computed from the bit lengths of numerator
and denominator, with a one-step correction. -/
def flog2 (q : ℚ) : ℤ :=
  let e : ℤ := (natLog2 q.num.toNat : ℤ) - (natLog2 q.den : ℤ)
  if q < pow2 e then e - 1 else e

/-- Round a rational to the nearest integer, ties to even. -/
def rne (q : ℚ) : ℤ :=
  let n := q.floor
  let r := q - (n : ℚ)
  if r < 1 / 2 then n
  else if 1 / 2 < r then n + 1
  else if n % 2 = 0 then n else n + 1

/-- IEEE-754 round-to-nearest-even of a positive rational at significand
precision `p` (normal range: no overflow or subnormal handling, which no
value in this development reaches). -/
def fpRoundPos (p : ℕ) (q : ℚ) : ℚ :=
  let e := flog2 q
  (rne (q * pow2 ((p : ℤ) - 1 - e)) : ℚ) * pow2 (e - ((p : ℤ) - 1))

/-- IEEE-754 round-to-nearest-even at significand precision `p`. -/
def fpRound (p : ℕ) (q : ℚ) : ℚ :=
  if q = 0 then 0
  else if q < 0 then -fpRoundPos p (-q)
  else fpRoundPos p q

/-- Floating-point addition at precision `p`: exact sum, then round. -/
def fpAdd (p : ℕ) (a b : ℚ) : ℚ := fpRound p (a + b)

/-- Floating-point subtraction at precision `p`. -/
def fpSub (p : ℕ) (a b : ℚ) : ℚ := fpRound p (a - b)

/-- Floating-point multiplication at precision `p`. -/
def fpMul (p : ℕ) (a b : ℚ) : ℚ := fpRound p (a * b)

/-- Floating-point division at precision `p`. -/
def fpDiv (p : ℕ) (a b : ℚ) : ℚ := fpRound p (a / b)

/-- `const SCALE: f64 = (1u64 << 52) as f64` (exactly representable). -/
def scale64 : ℚ := pow2 52

/-- `const SCALE: f32 = (1u64 << 23) as f32` (exactly representable). -/
def scale32 : ℚ := pow2 23

/-- `f64::EPSILON = 2 ^ (-52)`. -/
def eps64 : ℚ := pow2 (-52)

/-- `f32::EPSILON = 2 ^ (-23)`. -/
def eps32 : ℚ := pow2 (-23)

/-- `impl Rand for Closed01<f64>`: `Closed01(rng.next_f64() * SCALE / (SCALE - 1.0))`,
as a function of the half-open draw `d`, with every arithmetic operation
rounded at `f64` precision (53 significand bits). -/
def closed01f64 (d : ℚ) : ℚ := fpDiv 53 (fpMul 53 d scale64) (fpSub 53 scale64 1)

/-- `impl Rand for Open01<f64>`: `Open01(rng.next_f64() + 0.25 / SCALE)`,
as a function of the half-open draw `d`, at `f64` precision. -/
def open01f64 (d : ℚ) : ℚ := fpAdd 53 d (fpDiv 53 (1 / 4) scale64)

/-- `impl Rand for Closed01<f32>`: `Closed01(rng.next_f32() * SCALE / (SCALE - 1.0))`,
at `f32` precision (24 significand bits). -/
def closed01f32 (d : ℚ) : ℚ := fpDiv 24 (fpMul 24 d scale32) (fpSub 24 scale32 1)

/-- `impl Rand for Open01<f32>`: `Open01(rng.next_f32() + 0.25 / SCALE)`,
at `f32` precision. -/
def open01f32 (d : ℚ) : ℚ := fpAdd 24 d (fpDiv 24 (1 / 4) scale32)

/-- The entropy source (the `Rng` trait as consumed by `rand_impls.rs`):
two streams of raw generator words and counters of how many 32-bit and
64-bit draws have been consumed so far. -/
structure Rng where
  u32s : ℕ → ℕ
  u64s : ℕ → ℕ
  k32 : ℕ
  k64 : ℕ

/-- `rng.next_u32()`: the next 32-bit draw (stream word masked to 32 bits),
together with the advanced source. -/
def Rng.nextU32 (r : Rng) : ℕ × Rng :=
  (r.u32s r.k32 % 2 ^ 32, ⟨r.u32s, r.u64s, r.k32 + 1, r.k64⟩)

/-- `rng.next_u64()`: the next 64-bit draw (stream word masked to 64 bits),
together with the advanced source. -/
def Rng.nextU64 (r : Rng) : ℕ × Rng :=
  (r.u64s r.k64 % 2 ^ 64, ⟨r.u32s, r.u64s, r.k32, r.k64 + 1⟩)

/-- The source with one 32-bit draw consumed (streams unchanged). -/
def bump32 (r : Rng) : Rng := ⟨r.u32s, r.u64s, r.k32 + 1, r.k64⟩

/-- The source with two 64-bit draws consumed (streams unchanged). -/
def bump64twice (r : Rng) : Rng := ⟨r.u32s, r.u64s, r.k32, r.k64 + 2⟩

/-- A source all of whose stream words are the constant `v`, with no draws
consumed yet. -/
def constRng (v : ℕ) : Rng := ⟨fun _ => v, fun _ => v, 0, 0⟩

/-- Reinterpret the low `w` bits of `n` as a `w`-bit two's-complement
signed integer (the semantics of Rust's integer `as` cast to width `w`). -/
def toSigned (w : ℕ) (n : ℕ) : ℤ :=
  if n % 2 ^ w < 2 ^ (w - 1) then ((n % 2 ^ w : ℕ) : ℤ)
  else ((n % 2 ^ w : ℕ) : ℤ) - 2 ^ w

/-- `impl Rand for u8`: `rng.next_u32() as u8`. -/
def u8Rand (r : Rng) : ℕ × Rng :=
  let (d, r1) := r.nextU32
  (d % 2 ^ 8, r1)

/-- `impl Rand for u16`: `rng.next_u32() as u16`. -/
def u16Rand (r : Rng) : ℕ × Rng :=
  let (d, r1) := r.nextU32
  (d % 2 ^ 16, r1)

/-- `impl Rand for u32`: `rng.next_u32()`. -/
def u32Rand (r : Rng) : ℕ × Rng := r.nextU32

/-- `impl Rand for u64`: `rng.next_u64()`. -/
def u64Rand (r : Rng) : ℕ × Rng := r.nextU64

/-- `impl Rand for u128`: `((rng.next_u64() as u128) << 64) | (rng.next_u64() as u128)`. -/
def u128Rand (r : Rng) : ℕ × Rng :=
  let (h, r1) := r.nextU64
  let (l, r2) := r1.nextU64
  ((h <<< 64) ||| l, r2)

/-- `impl Rand for i8`: `rng.next_u32() as i8`. -/
def i8Rand (r : Rng) : ℤ × Rng :=
  let (d, r1) := r.nextU32
  (toSigned 8 d, r1)

/-- `impl Rand for i16`: `rng.next_u32() as i16`. -/
def i16Rand (r : Rng) : ℤ × Rng :=
  let (d, r1) := r.nextU32
  (toSigned 16 d, r1)

/-- `impl Rand for i32`: `rng.next_u32() as i32`. -/
def i32Rand (r : Rng) : ℤ × Rng :=
  let (d, r1) := r.nextU32
  (toSigned 32 d, r1)

/-- `impl Rand for i128`: `rng.gen::<u128>() as i128`. -/
def i128Rand (r : Rng) : ℤ × Rng :=
  let (d, r1) := u128Rand r
  (toSigned 128 d, r1)

/-- `impl Rand for bool`: `rng.gen::<u8>() & 1 == 1`. -/
def boolRand (r : Rng) : Bool × Rng :=
  let (b, r1) := u8Rand r
  ((b &&& 1) == 1, r1)

/-- `impl<T: Rand> Rand for Option<T>`: draw a `bool`; if `true`, wrap a
generated inner value in `Some`, else return `None`. -/
def optionRand {α : Type} (g : Rng → α × Rng) (r : Rng) : Option α × Rng :=
  let (b, r1) := boolRand r
  if b then
    let (x, r2) := g r1
    (some x, r2)
  else
    (none, r1)

/-- `const CHAR_MASK: u32 = 0x001f_ffff` from `impl Rand for char`. -/
def charMask : ℕ := 0x001fffff

/-- Validity test of `char::from_u32`: a `u32` is a Unicode scalar value
iff it is below the surrogate range `0xD800..=0xDFFF` or above it and at
most `0x10FFFF`. -/
def isValidScalar (n : ℕ) : Bool :=
  decide (n < 0xD800) || (decide (0xDFFF < n) && decide (n ≤ 0x10FFFF))

/-- `impl Rand for char`: rejection sampling of `rng.next_u32() & CHAR_MASK`,
as a fuel-indexed unfolding of the source's unbounded `loop`; `none` means
the loop has not returned within `fuel` iterations. -/
def charRand : ℕ → Rng → Option (ℕ × Rng)
  | 0, _ => none
  | fuel + 1, r =>
    let (d, r1) := r.nextU32
    if isValidScalar (d &&& charMask) then some (d &&& charMask, r1)
    else charRand fuel r1

/-- `impl<T: SeedableRng> Rand for T`: `Self::from_rng(rng).unwrap()`.
The constructor yields `Except ε (α × Rng)`; `unwrap` propagates an error
outcome fatally (a Rust panic) and returns a successful instance unchanged. -/
def seedableRand {ε α : Type} (fromRng : Rng → Except ε (α × Rng)) (r : Rng) :
    Except ε (α × Rng) :=
  match fromRng r with
  | Except.ok v => Except.ok v
  | Except.error e => Except.error e

section TupleImpls

variable {A B C D E G H I J K L M : Type}

/-- `tuple_impl!{A}`: the 1-tuple `(rng.gen::<A>(),)`. -/
def tuple1Rand (gA : Rng → A × Rng) (r : Rng) : A × Rng :=
  let (a, r1) := gA r
  (a, r1)

/-- `tuple_impl!{A, B}`: elements generated left to right. -/
def tuple2Rand (gA : Rng → A × Rng) (gB : Rng → B × Rng) (r : Rng) :
    (A × B) × Rng :=
  let (a, r1) := gA r
  let (b, r2) := gB r1
  ((a, b), r2)

/-- `tuple_impl!{A, B, C}`. -/
def tuple3Rand (gA : Rng → A × Rng) (gB : Rng → B × Rng) (gC : Rng → C × Rng)
    (r : Rng) : (A × B × C) × Rng :=
  let (a, r1) := gA r
  let (b, r2) := gB r1
  let (c, r3) := gC r2
  ((a, b, c), r3)

/-- `tuple_impl!{A, B, C, D}`. -/
def tuple4Rand (gA : Rng → A × Rng) (gB : Rng → B × Rng) (gC : Rng → C × Rng)
    (gD : Rng → D × Rng) (r : Rng) : (A × B × C × D) × Rng :=
  let (a, r1) := gA r
  let (b, r2) := gB r1
  let (c, r3) := gC r2
  let (d, r4) := gD r3
  ((a, b, c, d), r4)

/-- `tuple_impl!{A, B, C, D, E}`. -/
def tuple5Rand (gA : Rng → A × Rng) (gB : Rng → B × Rng) (gC : Rng → C × Rng)
    (gD : Rng → D × Rng) (gE : Rng → E × Rng) (r : Rng) :
    (A × B × C × D × E) × Rng :=
  let (a, r1) := gA r
  let (b, r2) := gB r1
  let (c, r3) := gC r2
  let (d, r4) := gD r3
  let (e, r5) := gE r4
  ((a, b, c, d, e), r5)

/-- `tuple_impl!{A, B, C, D, E, F}`. -/
def tuple6Rand (gA : Rng → A × Rng) (gB : Rng → B × Rng) (gC : Rng → C × Rng)
    (gD : Rng → D × Rng) (gE : Rng → E × Rng) (gG : Rng → G × Rng) (r : Rng) :
    (A × B × C × D × E × G) × Rng :=
  let (a, r1) := gA r
  let (b, r2) := gB r1
  let (c, r3) := gC r2
  let (d, r4) := gD r3
  let (e, r5) := gE r4
  let (f, r6) := gG r5
  ((a, b, c, d, e, f), r6)

/-- `tuple_impl!{A, B, C, D, E, F, G}`. -/
def tuple7Rand (gA : Rng → A × Rng) (gB : Rng → B × Rng) (gC : Rng → C × Rng)
    (gD : Rng → D × Rng) (gE : Rng → E × Rng) (gG : Rng → G × Rng)
    (gH : Rng → H × Rng) (r : Rng) : (A × B × C × D × E × G × H) × Rng :=
  let (a, r1) := gA r
  let (b, r2) := gB r1
  let (c, r3) := gC r2
  let (d, r4) := gD r3
  let (e, r5) := gE r4
  let (f, r6) := gG r5
  let (g, r7) := gH r6
  ((a, b, c, d, e, f, g), r7)

/-- `tuple_impl!{A, B, C, D, E, F, G, H}`. -/
def tuple8Rand (gA : Rng → A × Rng) (gB : Rng → B × Rng) (gC : Rng → C × Rng)
    (gD : Rng → D × Rng) (gE : Rng → E × Rng) (gG : Rng → G × Rng)
    (gH : Rng → H × Rng) (gI : Rng → I × Rng) (r : Rng) :
    (A × B × C × D × E × G × H × I) × Rng :=
  let (a, r1) := gA r
  let (b, r2) := gB r1
  let (c, r3) := gC r2
  let (d, r4) := gD r3
  let (e, r5) := gE r4
  let (f, r6) := gG r5
  let (g, r7) := gH r6
  let (h, r8) := gI r7
  ((a, b, c, d, e, f, g, h), r8)

/-- `tuple_impl!{A, B, C, D, E, F, G, H, I}`. -/
def tuple9Rand (gA : Rng → A × Rng) (gB : Rng → B × Rng) (gC : Rng → C × Rng)
    (gD : Rng → D × Rng) (gE : Rng → E × Rng) (gG : Rng → G × Rng)
    (gH : Rng → H × Rng) (gI : Rng → I × Rng) (gJ : Rng → J × Rng) (r : Rng) :
    (A × B × C × D × E × G × H × I × J) × Rng :=
  let (a, r1) := gA r
  let (b, r2) := gB r1
  let (c, r3) := gC r2
  let (d, r4) := gD r3
  let (e, r5) := gE r4
  let (f, r6) := gG r5
  let (g, r7) := gH r6
  let (h, r8) := gI r7
  let (i, r9) := gJ r8
  ((a, b, c, d, e, f, g, h, i), r9)

/-- `tuple_impl!{A, B, C, D, E, F, G, H, I, J}`. -/
def tuple10Rand (gA : Rng → A × Rng) (gB : Rng → B × Rng) (gC : Rng → C × Rng)
    (gD : Rng → D × Rng) (gE : Rng → E × Rng) (gG : Rng → G × Rng)
    (gH : Rng → H × Rng) (gI : Rng → I × Rng) (gJ : Rng → J × Rng)
    (gK : Rng → K × Rng) (r : Rng) : (A × B × C × D × E × G × H × I × J × K) × Rng :=
  let (a, r1) := gA r
  let (b, r2) := gB r1
  let (c, r3) := gC r2
  let (d, r4) := gD r3
  let (e, r5) := gE r4
  let (f, r6) := gG r5
  let (g, r7) := gH r6
  let (h, r8) := gI r7
  let (i, r9) := gJ r8
  let (j, r10) := gK r9
  ((a, b, c, d, e, f, g, h, i, j), r10)

/-- `tuple_impl!{A, B, C, D, E, F, G, H, I, J, K}`. -/
def tuple11Rand (gA : Rng → A × Rng) (gB : Rng → B × Rng) (gC : Rng → C × Rng)
    (gD : Rng → D × Rng) (gE : Rng → E × Rng) (gG : Rng → G × Rng)
    (gH : Rng → H × Rng) (gI : Rng → I × Rng) (gJ : Rng → J × Rng)
    (gK : Rng → K × Rng) (gL : Rng → L × Rng) (r : Rng) :
    (A × B × C × D × E × G × H × I × J × K × L) × Rng :=
  let (a, r1) := gA r
  let (b, r2) := gB r1
  let (c, r3) := gC r2
  let (d, r4) := gD r3
  let (e, r5) := gE r4
  let (f, r6) := gG r5
  let (g, r7) := gH r6
  let (h, r8) := gI r7
  let (i, r9) := gJ r8
  let (j, r10) := gK r9
  let (k, r11) := gL r10
  ((a, b, c, d, e, f, g, h, i, j, k), r11)

/-- `tuple_impl!{A, B, C, D, E, F, G, H, I, J, K, L}`. -/
def tuple12Rand (gA : Rng → A × Rng) (gB : Rng → B × Rng) (gC : Rng → C × Rng)
    (gD : Rng → D × Rng) (gE : Rng → E × Rng) (gG : Rng → G × Rng)
    (gH : Rng → H × Rng) (gI : Rng → I × Rng) (gJ : Rng → J × Rng)
    (gK : Rng → K × Rng) (gL : Rng → L × Rng) (gM : Rng → M × Rng) (r : Rng) :
    (A × B × C × D × E × G × H × I × J × K × L × M) × Rng :=
  let (a, r1) := gA r
  let (b, r2) := gB r1
  let (c, r3) := gC r2
  let (d, r4) := gD r3
  let (e, r5) := gE r4
  let (f, r6) := gG r5
  let (g, r7) := gH r6
  let (h, r8) := gI r7
  let (i, r9) := gJ r8
  let (j, r10) := gK r9
  let (k, r11) := gL r10
  let (l, r12) := gM r11
  ((a, b, c, d, e, f, g, h, i, j, k, l), r12)

end TupleImpls

/-- Two sources present the same sequence of still-unconsumed draws. -/
def Agrees (r1 r2 : Rng) : Prop :=
  (∀ n, r1.u32s (r1.k32 + n) = r2.u32s (r2.k32 + n)) ∧
  (∀ n, r1.u64s (r1.k64 + n) = r2.u64s (r2.k64 + n))

/-- A generator is determined by the sequence of draws it is fed: on two
sources presenting the same unconsumed draw sequence, it produces the same
value, and the advanced sources again present the same draw sequence. -/
def StreamDet {α : Type} (g : Rng → α × Rng) : Prop :=
  ∀ r1 r2, Agrees r1 r2 → (g r1).1 = (g r2).1 ∧ Agrees (g r1).2 (g r2).2

attribute [local semireducible] Rat.add Rat.sub Rat.mul Rat.inv


/-- `n &&& 1` is the parity of `n`. -/
theorem and_one_mod_two (n : ℕ) : n &&& 1 = n % 2 := Nat.and_one_is_mod n

/-- Truncating to `w` bits first does not change the two's-complement
reinterpretation at width `w`. -/
theorem toSigned_mod (w n : ℕ) : toSigned w (n % 2 ^ w) = toSigned w n := by
  unfold toSigned
  rw [Nat.mod_mod_of_dvd n dvd_rfl]

/-- The low bit survives the truncations `% 2 ^ 32` and `% 2 ^ 8`. -/
theorem low_bit_stable (n : ℕ) : n % 2 ^ 32 % 2 ^ 8 % 2 = n % 2 := by
  rw [Nat.mod_mod_of_dvd _ (by norm_num), Nat.mod_mod_of_dvd _ (by norm_num)]

/-- C4: each of the 8-, 16- and 32-bit integer generators (signed and
unsigned) consumes exactly one 32-bit draw `d` and returns `d` truncated to
the target width, reinterpreted as two's complement for the signed widths;
this holds for every source state, hence for every draw `d` including `0`
and the all-ones pattern. -/
theorem int_rand_truncates (r : Rng) :
    u8Rand r = (r.u32s r.k32 % 2 ^ 32 % 2 ^ 8, bump32 r) ∧
    u16Rand r = (r.u32s r.k32 % 2 ^ 32 % 2 ^ 16, bump32 r) ∧
    u32Rand r = (r.u32s r.k32 % 2 ^ 32, bump32 r) ∧
    i8Rand r = (toSigned 8 (r.u32s r.k32 % 2 ^ 32), bump32 r) ∧
    i16Rand r = (toSigned 16 (r.u32s r.k32 % 2 ^ 32), bump32 r) ∧
    i32Rand r = (toSigned 32 (r.u32s r.k32 % 2 ^ 32), bump32 r) ∧
    toSigned 8 (r.u32s r.k32 % 2 ^ 32) = toSigned 8 (r.u32s r.k32 % 2 ^ 32 % 2 ^ 8) ∧
    toSigned 16 (r.u32s r.k32 % 2 ^ 32) = toSigned 16 (r.u32s r.k32 % 2 ^ 32 % 2 ^ 16) ∧
    (bump32 r).k32 = r.k32 + 1 ∧ (bump32 r).k64 = r.k64 := by
  refine ⟨rfl, rfl, rfl, rfl, rfl, rfl, ?_, ?_, rfl, rfl⟩
  · exact (toSigned_mod 8 _).symm
  · exact (toSigned_mod 16 _).symm

/-- C5: the 128-bit generator consumes exactly two 64-bit draws and returns
`(first <<< 64) ||| second`; the first draw occupies the high 64 bits
(the quotient by `2 ^ 64`) and the second the low 64 bits (the remainder);
the signed version reinterprets the same pattern as two's complement. -/
theorem u128_rand_concats (r : Rng) :
    u128Rand r =
      ((r.u64s r.k64 % 2 ^ 64) <<< 64 ||| r.u64s (r.k64 + 1) % 2 ^ 64, bump64twice r) ∧
    (u128Rand r).1 = (r.u64s r.k64 % 2 ^ 64) * 2 ^ 64 + r.u64s (r.k64 + 1) % 2 ^ 64 ∧
    (u128Rand r).1 / 2 ^ 64 = r.u64s r.k64 % 2 ^ 64 ∧
    (u128Rand r).1 % 2 ^ 64 = r.u64s (r.k64 + 1) % 2 ^ 64 ∧
    i128Rand r = (toSigned 128 (u128Rand r).1, bump64twice r) ∧
    (bump64twice r).k64 = r.k64 + 2 ∧ (bump64twice r).k32 = r.k32 := by
  have hl : r.u64s (r.k64 + 1) % 2 ^ 64 < 2 ^ 64 := Nat.mod_lt _ (by norm_num)
  have key : (u128Rand r).1 =
      (r.u64s r.k64 % 2 ^ 64) * 2 ^ 64 + r.u64s (r.k64 + 1) % 2 ^ 64 := by
    show (r.u64s r.k64 % 2 ^ 64) <<< 64 ||| r.u64s (r.k64 + 1) % 2 ^ 64 = _
    rw [Nat.shiftLeft_eq, Nat.mul_comm, ← Nat.mul_add_lt_is_or hl, Nat.mul_comm]
  refine ⟨rfl, key, ?_, ?_, rfl, rfl, rfl⟩
  · rw [key, Nat.add_comm, Nat.add_mul_div_right _ _ (by norm_num : (0 : ℕ) < 2 ^ 64),
      Nat.div_eq_of_lt hl, Nat.zero_add]
  · rw [key, Nat.add_comm, Nat.add_mul_mod_self_right, Nat.mod_eq_of_lt hl]

/-- C10: the boolean generator consumes exactly one 32-bit draw, returns
`true` iff the lowest bit of that draw is `1`, and ignores the upper 31
bits: any two sources whose next 32-bit draws agree modulo 2 produce the
same boolean. -/
theorem bool_rand_low_bit (r : Rng) :
    ((boolRand r).1 = true ↔ r.u32s r.k32 % 2 = 1) ∧
    (boolRand r).2 = bump32 r ∧
    (bump32 r).k32 = r.k32 + 1 ∧ (bump32 r).k64 = r.k64 ∧
    (∀ r2 : Rng, r2.u32s r2.k32 % 2 = r.u32s r.k32 % 2 →
      (boolRand r2).1 = (boolRand r).1) := by
  have val : ∀ s : Rng, (boolRand s).1 = (s.u32s s.k32 % 2 == 1) := by
    intro s
    show ((s.u32s s.k32 % 2 ^ 32 % 2 ^ 8 &&& 1) == 1) = (s.u32s s.k32 % 2 == 1)
    rw [and_one_mod_two, low_bit_stable]
  refine ⟨?_, rfl, rfl, rfl, ?_⟩
  · rw [val r]
    exact beq_iff_eq
  · intro r2 h
    rw [val r, val r2, h]

/-- C7: the seedable-type adapter invokes the from-source constructor and
unwraps its result: its outcome is exactly the constructor's outcome, so a
reported failure propagates fatally unchanged (no retry, no masking, no
default) and a successful instance is returned unchanged. -/
theorem seedable_rand_propagates {ε α : Type} (f : Rng → Except ε (α × Rng)) (r : Rng) :
    seedableRand f r = f r ∧
    (∀ e : ε, f r = Except.error e → seedableRand f r = Except.error e) ∧
    (∀ v : α × Rng, f r = Except.ok v → seedableRand f r = Except.ok v) := by
  have h : seedableRand f r = f r := by
    unfold seedableRand
    cases f r with
    | ok v => rfl
    | error e => rfl
  exact ⟨h, fun e he => h.trans he, fun v hv => h.trans hv⟩

/-- C8: generating an optional value draws one boolean first; if the low
bit of that draw is `0` (boolean `false`), the result is `none` with
exactly the one boolean draw consumed and no inner draws; if it is `1`
(boolean `true`), the inner value is generated from the subsequent draws
and wrapped in `some`. -/
theorem option_rand_bool_first {α : Type} (g : Rng → α × Rng) (r : Rng) :
    (r.u32s r.k32 % 2 = 0 → optionRand g r = (none, bump32 r) ∧
      (optionRand g r).2.k32 = r.k32 + 1 ∧ (optionRand g r).2.k64 = r.k64) ∧
    (r.u32s r.k32 % 2 = 1 →
      optionRand g r = (some (g (bump32 r)).1, (g (bump32 r)).2)) := by
  have hb : (boolRand r).1 = (r.u32s r.k32 % 2 == 1) := by
    show ((r.u32s r.k32 % 2 ^ 32 % 2 ^ 8 &&& 1) == 1) = (r.u32s r.k32 % 2 == 1)
    rw [and_one_mod_two, low_bit_stable]
  have hs : (boolRand r).2 = bump32 r := rfl
  have unf : optionRand g r =
      if (boolRand r).1 then (some (g (boolRand r).2).1, (g (boolRand r).2).2)
      else (none, (boolRand r).2) := rfl
  constructor
  · intro h0
    rw [unf, hb, hs, h0]
    exact ⟨rfl, rfl, rfl⟩
  · intro h1
    rw [unf, hb, hs, h1]
    rfl

/-- Unfolding of `isValidScalar` to an arithmetic disjunction. -/
theorem isValidScalar_iff (n : ℕ) :
    isValidScalar n = true ↔ (n < 0xD800 ∨ (0xDFFF < n ∧ n ≤ 0x10FFFF)) := by
  simp [isValidScalar]

/-- C3: whenever the Unicode sampler returns, the returned value is the
low 21 bits of one of the source's 32-bit draws, is never in the surrogate
range `0xD800–0xDFFF`, and never exceeds `0x10FFFF`. -/
theorem char_rand_valid :
    ∀ (fuel : ℕ) (r : Rng) (c : ℕ) (r2 : Rng), charRand fuel r = some (c, r2) →
      ¬(0xD800 ≤ c ∧ c ≤ 0xDFFF) ∧ c ≤ 0x10FFFF ∧
        ∃ i, r.k32 ≤ i ∧ c = (r.u32s i % 2 ^ 32) &&& charMask := by
  intro fuel
  induction fuel with
  | zero => intro r c r2 h; exact absurd h (by simp [charRand])
  | succ f ih =>
    intro r c r2 h
    have h2 : (if isValidScalar (r.u32s r.k32 % 2 ^ 32 &&& charMask) = true
        then some (r.u32s r.k32 % 2 ^ 32 &&& charMask, bump32 r)
        else charRand f (bump32 r)) = some (c, r2) := h
    by_cases hv : isValidScalar (r.u32s r.k32 % 2 ^ 32 &&& charMask) = true
    · rw [if_pos hv] at h2
      simp only [Option.some.injEq, Prod.mk.injEq] at h2
      obtain ⟨hc, -⟩ := h2
      subst hc
      rcases (isValidScalar_iff _).1 hv with hlo | ⟨hgt, hle⟩
      · exact ⟨fun hh => absurd hlo (by omega), by omega, r.k32, le_refl _, rfl⟩
      · exact ⟨fun hh => absurd hgt (by omega), hle, r.k32, le_refl _, rfl⟩
    · rw [if_neg hv] at h2
      obtain ⟨hsur, hmax, i, hi, hc⟩ := ih _ _ _ h2
      exact ⟨hsur, hmax, i, le_trans (Nat.le_succ _) hi, hc⟩

/-- One unfolding step of the rejection loop. -/
theorem charRand_succ (f : ℕ) (s : Rng) :
    charRand (f + 1) s =
      if isValidScalar (s.u32s s.k32 % 2 ^ 32 &&& charMask) = true
      then some (s.u32s s.k32 % 2 ^ 32 &&& charMask, bump32 s)
      else charRand f (bump32 s) := rfl

/-- C6: the Unicode sampler is an unbounded retry loop with no failure
path.  If no masked candidate in the source's draw stream is ever valid,
the loop never returns (no fuel suffices); if the `i`-th unconsumed draw is
the first whose masked low 21 bits are valid, then for every fuel larger
than `i` the loop returns exactly that candidate, having consumed the
draws up to and including position `i`. -/
theorem char_rand_retry_loop (r : Rng) :
    ((∀ i, isValidScalar (r.u32s (r.k32 + i) % 2 ^ 32 &&& charMask) = false) →
      ∀ fuel, charRand fuel r = none) ∧
    (∀ i, isValidScalar (r.u32s (r.k32 + i) % 2 ^ 32 &&& charMask) = true →
      (∀ j, j < i → isValidScalar (r.u32s (r.k32 + j) % 2 ^ 32 &&& charMask) = false) →
      ∀ fuel, i < fuel →
        charRand fuel r = some (r.u32s (r.k32 + i) % 2 ^ 32 &&& charMask,
          ⟨r.u32s, r.u64s, r.k32 + i + 1, r.k64⟩)) := by
  have aux1 : ∀ (fuel : ℕ) (s : Rng),
      (∀ i, isValidScalar (s.u32s (s.k32 + i) % 2 ^ 32 &&& charMask) = false) →
      charRand fuel s = none := by
    intro fuel
    induction fuel with
    | zero => intro s hs; rfl
    | succ f ih =>
      intro s hs
      rw [charRand_succ]
      have h0 := hs 0
      rw [Nat.add_zero] at h0
      rw [if_neg (by rw [h0]; simp)]
      refine ih (bump32 s) ?_
      intro i
      show isValidScalar (s.u32s (s.k32 + 1 + i) % 2 ^ 32 &&& charMask) = false
      have e : s.k32 + 1 + i = s.k32 + (i + 1) := by omega
      rw [e]
      exact hs (i + 1)
  have aux2 : ∀ (i : ℕ) (s : Rng) (fuel : ℕ),
      isValidScalar (s.u32s (s.k32 + i) % 2 ^ 32 &&& charMask) = true →
      (∀ j, j < i → isValidScalar (s.u32s (s.k32 + j) % 2 ^ 32 &&& charMask) = false) →
      i < fuel →
      charRand fuel s = some (s.u32s (s.k32 + i) % 2 ^ 32 &&& charMask,
        ⟨s.u32s, s.u64s, s.k32 + i + 1, s.k64⟩) := by
    intro i
    induction i with
    | zero =>
      intro s fuel hv _ hlt
      cases fuel with
      | zero => omega
      | succ f =>
        rw [charRand_succ, if_pos (by rw [← Nat.add_zero s.k32]; exact hv)]
        rfl
    | succ i ih =>
      intro s fuel hv hbef hlt
      cases fuel with
      | zero => omega
      | succ f =>
        rw [charRand_succ]
        have h0 := hbef 0 (Nat.succ_pos i)
        rw [Nat.add_zero] at h0
        rw [if_neg (by rw [h0]; simp)]
        have e : s.k32 + (i + 1) = s.k32 + 1 + i := by omega
        rw [e, show s.k32 + 1 + i + 1 = s.k32 + 1 + i + 1 from rfl]
        refine ih (bump32 s) f ?_ ?_ (by omega)
        · show isValidScalar (s.u32s (s.k32 + 1 + i) % 2 ^ 32 &&& charMask) = true
          rw [← e]
          exact hv
        · intro j hj
          show isValidScalar (s.u32s (s.k32 + 1 + j) % 2 ^ 32 &&& charMask) = false
          have ej : s.k32 + 1 + j = s.k32 + (j + 1) := by omega
          rw [ej]
          exact hbef (j + 1) (by omega)
  exact ⟨fun hs fuel => aux1 fuel r hs, fun i hv hb fuel hlt => aux2 i r fuel hv hb hlt⟩

/-- Sequencing two stream-determined generators and pairing their results
is stream-determined; tuple generation is iterated sequencing in
left-to-right order. -/
theorem StreamDet.pairSeq {α β : Type} {g : Rng → α × Rng} {k : Rng → β × Rng}
    (hg : StreamDet g) (hk : StreamDet k) :
    StreamDet (fun r =>
      let (a, r1) := g r
      let (b, r2) := k r1
      ((a, b), r2)) := by
  intro r1 r2 h
  obtain ⟨e1, a1⟩ := hg r1 r2 h
  obtain ⟨e2, a2⟩ := hk _ _ a1
  refine ⟨?_, a2⟩
  show ((g r1).1, (k (g r1).2).1) = ((g r2).1, (k (g r2).2).1)
  rw [e1, e2]

/-- The 32-bit primitive generator is determined by the draw stream. -/
theorem u32Rand_streamDet : StreamDet u32Rand := by
  intro r1 r2 h
  refine ⟨?_, ?_, ?_⟩
  · show r1.u32s r1.k32 % 2 ^ 32 = r2.u32s r2.k32 % 2 ^ 32
    have h0 := h.1 0
    rw [Nat.add_zero, Nat.add_zero] at h0
    rw [h0]
  · intro n
    show r1.u32s (r1.k32 + 1 + n) = r2.u32s (r2.k32 + 1 + n)
    have hn := h.1 (1 + n)
    rw [← Nat.add_assoc, ← Nat.add_assoc] at hn
    exact hn
  · intro n
    exact h.2 n

/-- C9: for every tuple arity from 1 through 12, with each element
generator determined by the draw stream, feeding two tuple-generation
calls the same sequence of unconsumed draws yields identical tuples
(elements are generated in the fixed left-to-right threading order of the
definitions). -/
theorem tuple_rand_deterministic {A B C D E G H I J K L M : Type}
    (gA : Rng → A × Rng) (gB : Rng → B × Rng) (gC : Rng → C × Rng)
    (gD : Rng → D × Rng) (gE : Rng → E × Rng) (gG : Rng → G × Rng)
    (gH : Rng → H × Rng) (gI : Rng → I × Rng) (gJ : Rng → J × Rng)
    (gK : Rng → K × Rng) (gL : Rng → L × Rng) (gM : Rng → M × Rng)
    (hA : StreamDet gA) (hB : StreamDet gB) (hC : StreamDet gC)
    (hD : StreamDet gD) (hE : StreamDet gE) (hG : StreamDet gG)
    (hH : StreamDet gH) (hI : StreamDet gI) (hJ : StreamDet gJ)
    (hK : StreamDet gK) (hL : StreamDet gL) (hM : StreamDet gM)
    (r1 r2 : Rng) (hr : Agrees r1 r2) :
    (tuple1Rand gA r1).1 = (tuple1Rand gA r2).1 ∧
    (tuple2Rand gA gB r1).1 = (tuple2Rand gA gB r2).1 ∧
    (tuple3Rand gA gB gC r1).1 = (tuple3Rand gA gB gC r2).1 ∧
    (tuple4Rand gA gB gC gD r1).1 = (tuple4Rand gA gB gC gD r2).1 ∧
    (tuple5Rand gA gB gC gD gE r1).1 = (tuple5Rand gA gB gC gD gE r2).1 ∧
    (tuple6Rand gA gB gC gD gE gG r1).1 = (tuple6Rand gA gB gC gD gE gG r2).1 ∧
    (tuple7Rand gA gB gC gD gE gG gH r1).1 =
      (tuple7Rand gA gB gC gD gE gG gH r2).1 ∧
    (tuple8Rand gA gB gC gD gE gG gH gI r1).1 =
      (tuple8Rand gA gB gC gD gE gG gH gI r2).1 ∧
    (tuple9Rand gA gB gC gD gE gG gH gI gJ r1).1 =
      (tuple9Rand gA gB gC gD gE gG gH gI gJ r2).1 ∧
    (tuple10Rand gA gB gC gD gE gG gH gI gJ gK r1).1 =
      (tuple10Rand gA gB gC gD gE gG gH gI gJ gK r2).1 ∧
    (tuple11Rand gA gB gC gD gE gG gH gI gJ gK gL r1).1 =
      (tuple11Rand gA gB gC gD gE gG gH gI gJ gK gL r2).1 ∧
    (tuple12Rand gA gB gC gD gE gG gH gI gJ gK gL gM r1).1 =
      (tuple12Rand gA gB gC gD gE gG gH gI gJ gK gL gM r2).1 :=
  ⟨(hA r1 r2 hr).1,
   ((hA.pairSeq hB) r1 r2 hr).1,
   ((hA.pairSeq (hB.pairSeq hC)) r1 r2 hr).1,
   ((hA.pairSeq (hB.pairSeq (hC.pairSeq hD))) r1 r2 hr).1,
   ((hA.pairSeq (hB.pairSeq (hC.pairSeq (hD.pairSeq hE)))) r1 r2 hr).1,
   ((hA.pairSeq (hB.pairSeq (hC.pairSeq (hD.pairSeq (hE.pairSeq hG))))) r1 r2 hr).1,
   ((hA.pairSeq (hB.pairSeq (hC.pairSeq (hD.pairSeq (hE.pairSeq (hG.pairSeq
     hH)))))) r1 r2 hr).1,
   ((hA.pairSeq (hB.pairSeq (hC.pairSeq (hD.pairSeq (hE.pairSeq (hG.pairSeq
     (hH.pairSeq hI))))))) r1 r2 hr).1,
   ((hA.pairSeq (hB.pairSeq (hC.pairSeq (hD.pairSeq (hE.pairSeq (hG.pairSeq
     (hH.pairSeq (hI.pairSeq hJ)))))))) r1 r2 hr).1,
   ((hA.pairSeq (hB.pairSeq (hC.pairSeq (hD.pairSeq (hE.pairSeq (hG.pairSeq
     (hH.pairSeq (hI.pairSeq (hJ.pairSeq hK))))))))) r1 r2 hr).1,
   ((hA.pairSeq (hB.pairSeq (hC.pairSeq (hD.pairSeq (hE.pairSeq (hG.pairSeq
     (hH.pairSeq (hI.pairSeq (hJ.pairSeq (hK.pairSeq hL)))))))))) r1 r2 hr).1,
   ((hA.pairSeq (hB.pairSeq (hC.pairSeq (hD.pairSeq (hE.pairSeq (hG.pairSeq
     (hH.pairSeq (hI.pairSeq (hJ.pairSeq (hK.pairSeq (hL.pairSeq
     hM))))))))))) r1 r2 hr).1⟩

/-- C1: the closed-interval generator computes `draw * SCALE / (SCALE - 1)`
in floating arithmetic, where `SCALE = 2 ^ 52` (`f64`) resp. `2 ^ 23`
(`f32`); a draw of exactly `0.0` yields exactly `0.0`, and the maximum
representable draw `1.0 - epsilon` yields exactly `1.0`. -/
theorem closed01_rescale :
    (∀ d : ℚ, 0 ≤ d → d < 1 →
      closed01f64 d = fpDiv 53 (fpMul 53 d scale64) (fpSub 53 scale64 1)) ∧
    closed01f64 0 = 0 ∧
    closed01f64 (1 - eps64) = 1 ∧
    (∀ d : ℚ, 0 ≤ d → d < 1 →
      closed01f32 d = fpDiv 24 (fpMul 24 d scale32) (fpSub 24 scale32 1)) ∧
    closed01f32 0 = 0 ∧
    closed01f32 (1 - eps32) = 1 ∧
    scale64 = 2 ^ 52 ∧ scale32 = 2 ^ 23 ∧
    eps64 = 1 / 2 ^ 52 ∧ eps32 = 1 / 2 ^ 23 := by
  exact ⟨fun d h0 h1 => rfl, by decide, by decide, fun d h0 h1 => rfl,
    by decide, by decide, by decide, by decide, by decide, by decide⟩

/-- Witness for C1 at the concrete draw `d = 1 / 2`. -/
theorem closed01_rescale_witness :
    closed01f64 (1 / 2) = fpDiv 53 (fpMul 53 (1 / 2) scale64) (fpSub 53 scale64 1) ∧
    closed01f32 (1 / 2) = fpDiv 24 (fpMul 24 (1 / 2) scale32) (fpSub 24 scale32 1) :=
  ⟨closed01_rescale.1 (1 / 2) (by norm_num) (by norm_num),
   closed01_rescale.2.2.2.1 (1 / 2) (by norm_num) (by norm_num)⟩

/-- C2: the open-interval generator computes `draw + 0.25 / SCALE` in
floating arithmetic (the bias is exactly `2 ^ (-54)` for `f64` and
`2 ^ (-25)` for `f32`); a draw of exactly `0.0` yields exactly
`0.25 * epsilon`, strictly greater than `0`, and the maximum draw
`1.0 - epsilon` yields exactly `1.0 - epsilon`, strictly less than `1`. -/
theorem open01_bias :
    (∀ d : ℚ, 0 ≤ d → d < 1 →
      open01f64 d = fpAdd 53 d (fpDiv 53 (1 / 4) scale64)) ∧
    fpDiv 53 (1 / 4) scale64 = 1 / 2 ^ 54 ∧
    open01f64 0 = 1 / 4 * eps64 ∧ 0 < open01f64 0 ∧
    open01f64 (1 - eps64) = 1 - eps64 ∧ open01f64 (1 - eps64) < 1 ∧
    (∀ d : ℚ, 0 ≤ d → d < 1 →
      open01f32 d = fpAdd 24 d (fpDiv 24 (1 / 4) scale32)) ∧
    fpDiv 24 (1 / 4) scale32 = 1 / 2 ^ 25 ∧
    open01f32 0 = 1 / 4 * eps32 ∧ 0 < open01f32 0 ∧
    open01f32 (1 - eps32) = 1 - eps32 ∧ open01f32 (1 - eps32) < 1 := by
  exact ⟨fun d h0 h1 => rfl, by decide, by decide, by decide, by decide,
    by decide, fun d h0 h1 => rfl, by decide, by decide, by decide,
    by decide, by decide⟩

/-- Witness for C2 at the concrete draw `d = 1 / 2`. -/
theorem open01_bias_witness :
    open01f64 (1 / 2) = fpAdd 53 (1 / 2) (fpDiv 53 (1 / 4) scale64) ∧
    open01f32 (1 / 2) = fpAdd 24 (1 / 2) (fpDiv 24 (1 / 4) scale32) :=
  ⟨open01_bias.1 (1 / 2) (by norm_num) (by norm_num),
   open01_bias.2.2.2.2.2.2.1 (1 / 2) (by norm_num) (by norm_num)⟩

/-- Witness for C3: a single draw of `65` is accepted and satisfies all
stated bounds. -/
theorem char_rand_valid_witness :
    ¬(0xD800 ≤ 65 ∧ 65 ≤ 0xDFFF) ∧ 65 ≤ 0x10FFFF ∧
      ∃ i, (constRng 65).k32 ≤ i ∧
        65 = (constRng 65).u32s i % 2 ^ 32 &&& charMask :=
  char_rand_valid 1 (constRng 65) 65 (bump32 (constRng 65)) rfl

/-- Witness for C6: a source that only ever offers the surrogate `0xD800`
never returns (here at fuel `3`), and a source whose first draw is `66`
returns it at once. -/
theorem char_rand_retry_loop_witness :
    charRand 3 (constRng 0xD800) = none ∧
    charRand 1 (constRng 66) =
      some ((constRng 66).u32s ((constRng 66).k32 + 0) % 2 ^ 32 &&& charMask,
        ⟨(constRng 66).u32s, (constRng 66).u64s, (constRng 66).k32 + 0 + 1,
          (constRng 66).k64⟩) :=
  ⟨(char_rand_retry_loop (constRng 0xD800)).1
     (fun i => (by decide : isValidScalar (0xD800 % 2 ^ 32 &&& charMask) = false)) 3,
   (char_rand_retry_loop (constRng 66)).2 0 rfl
     (fun j hj => absurd hj (Nat.not_lt_zero j)) 1 Nat.zero_lt_one⟩

/-- Witness for C7: a failing constructor aborts with its error, a
succeeding one returns its instance unchanged. -/
theorem seedable_rand_witness :
    seedableRand (fun _ => (Except.error 7 : Except ℕ (ℕ × Rng))) (constRng 0) =
      Except.error 7 ∧
    seedableRand (fun s => (Except.ok (5, s) : Except ℕ (ℕ × Rng))) (constRng 0) =
      Except.ok (5, constRng 0) :=
  ⟨(seedable_rand_propagates (fun _ => Except.error 7) (constRng 0)).2.1 7 rfl,
   (seedable_rand_propagates (fun s => Except.ok (5, s)) (constRng 0)).2.2
     (5, constRng 0) rfl⟩

/-- Witness for C8: an even first draw produces `none` consuming exactly
the boolean draw, an odd first draw wraps the inner value generated from
the subsequent draws. -/
theorem option_rand_witness :
    (optionRand u8Rand (constRng 2) = (none, bump32 (constRng 2)) ∧
      (optionRand u8Rand (constRng 2)).2.k32 = (constRng 2).k32 + 1 ∧
      (optionRand u8Rand (constRng 2)).2.k64 = (constRng 2).k64) ∧
    optionRand u8Rand (constRng 1) =
      (some (u8Rand (bump32 (constRng 1))).1, (u8Rand (bump32 (constRng 1))).2) :=
  ⟨(option_rand_bool_first u8Rand (constRng 2)).1 rfl,
   (option_rand_bool_first u8Rand (constRng 1)).2 rfl⟩

/-- Witness for C9: two sources with identical constant streams but
different consumed-draw counters generate identical tuples at every arity. -/
theorem tuple_rand_deterministic_witness :
    (tuple1Rand u32Rand (constRng 7)).1 =
      (tuple1Rand u32Rand ⟨fun _ => 7, fun _ => 7, 3, 5⟩).1 ∧
    (tuple2Rand u32Rand u32Rand (constRng 7)).1 =
      (tuple2Rand u32Rand u32Rand ⟨fun _ => 7, fun _ => 7, 3, 5⟩).1 ∧
    (tuple3Rand u32Rand u32Rand u32Rand (constRng 7)).1 =
      (tuple3Rand u32Rand u32Rand u32Rand ⟨fun _ => 7, fun _ => 7, 3, 5⟩).1 ∧
    (tuple4Rand u32Rand u32Rand u32Rand u32Rand (constRng 7)).1 =
      (tuple4Rand u32Rand u32Rand u32Rand u32Rand ⟨fun _ => 7, fun _ => 7, 3, 5⟩).1 ∧
    (tuple5Rand u32Rand u32Rand u32Rand u32Rand u32Rand (constRng 7)).1 =
      (tuple5Rand u32Rand u32Rand u32Rand u32Rand u32Rand
        ⟨fun _ => 7, fun _ => 7, 3, 5⟩).1 ∧
    (tuple6Rand u32Rand u32Rand u32Rand u32Rand u32Rand u32Rand (constRng 7)).1 =
      (tuple6Rand u32Rand u32Rand u32Rand u32Rand u32Rand u32Rand
        ⟨fun _ => 7, fun _ => 7, 3, 5⟩).1 ∧
    (tuple7Rand u32Rand u32Rand u32Rand u32Rand u32Rand u32Rand u32Rand
        (constRng 7)).1 =
      (tuple7Rand u32Rand u32Rand u32Rand u32Rand u32Rand u32Rand u32Rand
        ⟨fun _ => 7, fun _ => 7, 3, 5⟩).1 ∧
    (tuple8Rand u32Rand u32Rand u32Rand u32Rand u32Rand u32Rand u32Rand u32Rand
        (constRng 7)).1 =
      (tuple8Rand u32Rand u32Rand u32Rand u32Rand u32Rand u32Rand u32Rand u32Rand
        ⟨fun _ => 7, fun _ => 7, 3, 5⟩).1 ∧
    (tuple9Rand u32Rand u32Rand u32Rand u32Rand u32Rand u32Rand u32Rand u32Rand
        u32Rand (constRng 7)).1 =
      (tuple9Rand u32Rand u32Rand u32Rand u32Rand u32Rand u32Rand u32Rand u32Rand
        u32Rand ⟨fun _ => 7, fun _ => 7, 3, 5⟩).1 ∧
    (tuple10Rand u32Rand u32Rand u32Rand u32Rand u32Rand u32Rand u32Rand u32Rand
        u32Rand u32Rand (constRng 7)).1 =
      (tuple10Rand u32Rand u32Rand u32Rand u32Rand u32Rand u32Rand u32Rand u32Rand
        u32Rand u32Rand ⟨fun _ => 7, fun _ => 7, 3, 5⟩).1 ∧
    (tuple11Rand u32Rand u32Rand u32Rand u32Rand u32Rand u32Rand u32Rand u32Rand
        u32Rand u32Rand u32Rand (constRng 7)).1 =
      (tuple11Rand u32Rand u32Rand u32Rand u32Rand u32Rand u32Rand u32Rand u32Rand
        u32Rand u32Rand u32Rand ⟨fun _ => 7, fun _ => 7, 3, 5⟩).1 ∧
    (tuple12Rand u32Rand u32Rand u32Rand u32Rand u32Rand u32Rand u32Rand u32Rand
        u32Rand u32Rand u32Rand u32Rand (constRng 7)).1 =
      (tuple12Rand u32Rand u32Rand u32Rand u32Rand u32Rand u32Rand u32Rand u32Rand
        u32Rand u32Rand u32Rand u32Rand ⟨fun _ => 7, fun _ => 7, 3, 5⟩).1 :=
  tuple_rand_deterministic u32Rand u32Rand u32Rand u32Rand u32Rand u32Rand
    u32Rand u32Rand u32Rand u32Rand u32Rand u32Rand
    u32Rand_streamDet u32Rand_streamDet u32Rand_streamDet u32Rand_streamDet
    u32Rand_streamDet u32Rand_streamDet u32Rand_streamDet u32Rand_streamDet
    u32Rand_streamDet u32Rand_streamDet u32Rand_streamDet u32Rand_streamDet
    (constRng 7) ⟨fun _ => 7, fun _ => 7, 3, 5⟩ ⟨fun _ => rfl, fun _ => rfl⟩

/-- Witness for C10: sources offering `1` and `3` (equal low bit, distinct
upper bits) produce the same boolean. -/
theorem bool_rand_low_bit_witness :
    ((boolRand (constRng 1)).1 = true ↔ (constRng 1).u32s (constRng 1).k32 % 2 = 1) ∧
    (boolRand (constRng 3)).1 = (boolRand (constRng 1)).1 :=
  ⟨(bool_rand_low_bit (constRng 1)).1,
   (bool_rand_low_bit (constRng 1)).2.2.2.2 (constRng 3) rfl⟩
